import Mathlib

/-!
Verification development for the MA1TurnBased repository: a two-party,
turn-based Tic-Tac-Toe engine (3×3 grid, logic thread, network thread,
JSON wire protocol).  The definitions below are shallow embeddings of the
C++ source files `Board.cpp`, `Game.cpp` (logic/network thread functions)
and `NetworkManager.h/.cpp`.
-/

namespace MA1

/-- Cell mark, from `enum class TileState` in Board.h (EMPTY = 0, X = 1, O = 2). -/
inductive TileState
  | EMPTY
  | X
  | O
deriving DecidableEq, Repr

/-- Game result, from `enum class GameResult` in Board.h
(IN_PROGRESS = 0, X_WINS = 1, O_WINS = 2, DRAW = 3). -/
inductive GameResult
  | IN_PROGRESS
  | X_WINS
  | O_WINS
  | DRAW
deriving DecidableEq, Repr

/-- The 3×3 tile array `tiles[y][x]` of class `Board`; field `tYX` is
`tiles[Y][X]` (row `Y`, column `X`). -/
structure Grid where
  t00 : TileState
  t01 : TileState
  t02 : TileState
  t10 : TileState
  t11 : TileState
  t12 : TileState
  t20 : TileState
  t21 : TileState
  t22 : TileState
deriving DecidableEq, Repr

/-- Enumeration of all tile marks, for deciding universally quantified
statements over grids. -/
def TileState.all : List TileState := [TileState.EMPTY, TileState.X, TileState.O]

theorem TileState.mem_all (t : TileState) : t ∈ TileState.all := by
  cases t <;> simp [TileState.all]

instance decidableForallTileState {p : TileState → Prop} [DecidablePred p] :
    Decidable (∀ t, p t) :=
  decidable_of_iff (∀ t ∈ TileState.all, p t)
    ⟨fun h t => h t (TileState.mem_all t), fun h t _ => h t⟩

instance decidableForallGrid {p : Grid → Prop} [DecidablePred p] :
    Decidable (∀ g, p g) :=
  decidable_of_iff (∀ a b c d e f h i j, p ⟨a, b, c, d, e, f, h, i, j⟩)
    ⟨fun hh g => by cases g; exact hh _ _ _ _ _ _ _ _ _, fun hh a b c d e f h i j => hh _⟩

/-- Direct array read `tiles[y][x]` (as done inside Board.cpp after a bounds
check or with constant loop indices).  The catch-all case is never reached by
the embedded code, which only reads with coordinates in 0..2. -/
def tileAt (g : Grid) (x y : Int) : TileState :=
  if y = 0 then
    (if x = 0 then g.t00 else if x = 1 then g.t01 else if x = 2 then g.t02
     else TileState.EMPTY)
  else if y = 1 then
    (if x = 0 then g.t10 else if x = 1 then g.t11 else if x = 2 then g.t12
     else TileState.EMPTY)
  else if y = 2 then
    (if x = 0 then g.t20 else if x = 1 then g.t21 else if x = 2 then g.t22
     else TileState.EMPTY)
  else TileState.EMPTY

/-- Direct array write `tiles[y][x] = mark` (out-of-range coordinates leave
the grid unchanged; the embedded code only writes after a bounds check). -/
def setCell (g : Grid) (x y : Int) (m : TileState) : Grid :=
  if y = 0 then
    (if x = 0 then { g with t00 := m } else if x = 1 then { g with t01 := m }
     else if x = 2 then { g with t02 := m } else g)
  else if y = 1 then
    (if x = 0 then { g with t10 := m } else if x = 1 then { g with t11 := m }
     else if x = 2 then { g with t12 := m } else g)
  else if y = 2 then
    (if x = 0 then { g with t20 := m } else if x = 1 then { g with t21 := m }
     else if x = 2 then { g with t22 := m } else g)
  else g

/-- `Board::isValidPosition`: `x >= 0 && x < SIZE && y >= 0 && y < SIZE` with
`SIZE = 3`. -/
def isValidPosition (x y : Int) : Bool :=
  decide (0 ≤ x) && decide (x < 3) && decide (0 ≤ y) && decide (y < 3)

/-- `Board::setTile`: rejects invalid positions and occupied tiles, otherwise
writes the mark.  Returns the updated grid together with the C++ `bool`
return value. -/
def setTile (g : Grid) (x y : Int) (mark : TileState) : Grid × Bool :=
  if !(isValidPosition x y) then
    (g, false)
  else if tileAt g x y ≠ TileState.EMPTY then
    (g, false)
  else
    (setCell g x y mark, true)

/-- `Board::getTile` as written in Board.cpp: the bounds check is inverted
(`if (isValidPosition(x, y)) return TileState::EMPTY;`), so an in-bounds query
returns `EMPTY` without consulting the grid, and the array `tiles[y][x]` is
only indexed when the coordinates are out of bounds.  That out-of-bounds read
is undefined behavior and is modelled as `none`. -/
def getTile (_ : Grid) (x y : Int) : Option TileState :=
  if isValidPosition x y then some TileState.EMPTY else none

/-- `Board::isFull`: no tile is `EMPTY`. -/
def isFull (g : Grid) : Bool :=
  decide (g.t00 ≠ TileState.EMPTY) && decide (g.t01 ≠ TileState.EMPTY) &&
  decide (g.t02 ≠ TileState.EMPTY) && decide (g.t10 ≠ TileState.EMPTY) &&
  decide (g.t11 ≠ TileState.EMPTY) && decide (g.t12 ≠ TileState.EMPTY) &&
  decide (g.t20 ≠ TileState.EMPTY) && decide (g.t21 ≠ TileState.EMPTY) &&
  decide (g.t22 ≠ TileState.EMPTY)

/-- `Board::resetBoard`: every tile becomes `EMPTY`. -/
def emptyGrid : Grid :=
  ⟨TileState.EMPTY, TileState.EMPTY, TileState.EMPTY,
   TileState.EMPTY, TileState.EMPTY, TileState.EMPTY,
   TileState.EMPTY, TileState.EMPTY, TileState.EMPTY⟩

/-- `Board::checkWinner`: scan the 3 rows, then the 3 columns, then the two
diagonals for three identical non-empty marks; else `DRAW` when the board is
full; else `IN_PROGRESS`.  The branch order is exactly the order of the
`if` statements in Board.cpp. -/
def checkWinner (g : Grid) : GameResult :=
  if g.t00 ≠ TileState.EMPTY ∧ g.t00 = g.t01 ∧ g.t01 = g.t02 then
    (if g.t00 = TileState.X then GameResult.X_WINS else GameResult.O_WINS)
  else if g.t10 ≠ TileState.EMPTY ∧ g.t10 = g.t11 ∧ g.t11 = g.t12 then
    (if g.t10 = TileState.X then GameResult.X_WINS else GameResult.O_WINS)
  else if g.t20 ≠ TileState.EMPTY ∧ g.t20 = g.t21 ∧ g.t21 = g.t22 then
    (if g.t20 = TileState.X then GameResult.X_WINS else GameResult.O_WINS)
  else if g.t00 ≠ TileState.EMPTY ∧ g.t00 = g.t10 ∧ g.t10 = g.t20 then
    (if g.t00 = TileState.X then GameResult.X_WINS else GameResult.O_WINS)
  else if g.t01 ≠ TileState.EMPTY ∧ g.t01 = g.t11 ∧ g.t11 = g.t21 then
    (if g.t01 = TileState.X then GameResult.X_WINS else GameResult.O_WINS)
  else if g.t02 ≠ TileState.EMPTY ∧ g.t02 = g.t12 ∧ g.t12 = g.t22 then
    (if g.t02 = TileState.X then GameResult.X_WINS else GameResult.O_WINS)
  else if g.t00 ≠ TileState.EMPTY ∧ g.t00 = g.t11 ∧ g.t11 = g.t22 then
    (if g.t00 = TileState.X then GameResult.X_WINS else GameResult.O_WINS)
  else if g.t02 ≠ TileState.EMPTY ∧ g.t02 = g.t11 ∧ g.t11 = g.t20 then
    (if g.t02 = TileState.X then GameResult.X_WINS else GameResult.O_WINS)
  else if isFull g then
    GameResult.DRAW
  else
    GameResult.IN_PROGRESS

/-- Spec-side line predicate, written from the spec's words ("scanning 3 rows,
3 columns, 2 diagonals for three identical non-empty marks"): player `m` holds
a complete row, column or diagonal.  Used only to state claims about
`checkWinner`. -/
def specHasLine (g : Grid) (m : TileState) : Prop :=
  (g.t00 = m ∧ g.t01 = m ∧ g.t02 = m) ∨
  (g.t10 = m ∧ g.t11 = m ∧ g.t12 = m) ∨
  (g.t20 = m ∧ g.t21 = m ∧ g.t22 = m) ∨
  (g.t00 = m ∧ g.t10 = m ∧ g.t20 = m) ∨
  (g.t01 = m ∧ g.t11 = m ∧ g.t21 = m) ∨
  (g.t02 = m ∧ g.t12 = m ∧ g.t22 = m) ∨
  (g.t00 = m ∧ g.t11 = m ∧ g.t22 = m) ∨
  (g.t02 = m ∧ g.t11 = m ∧ g.t20 = m)

instance (g : Grid) (m : TileState) : Decidable (specHasLine g m) := by
  unfold specHasLine
  infer_instance

/-! ## Wire protocol (NetworkManager.h / NetworkManager.cpp)

The wire format is JSON (`nlohmann::json`).  `Json` models the JSON values
used by the protocol; the wire string itself is the `dump()` of such a value,
and `json::parse` of a dump returns the same value, so the transport level is
modelled directly on `Json` values. -/

inductive Json
  | null
  | int (n : Int)
  | str (s : String)
  | arr (xs : List Json)
  | obj (fields : List (String × Json))

/-- `enum class PacketType` from NetworkManager.h.  Game.cpp refers to the
full-state packet as `PacketType::GAME_STATE`; it occupies the slot the header
declares at position 1 (`GAME_STATE_UPDATE`). -/
inductive PacketType
  | PLAYER_MOVE
  | GAME_STATE
  | GAME_RESET
  | PLAYER_JOINED
  | CHAT_MESSAGE
deriving DecidableEq, Repr

/-- `static_cast<int>(type)` used by `NetworkPacket::serialize`. -/
def PacketType.toInt : PacketType → Int
  | .PLAYER_MOVE => 0
  | .GAME_STATE => 1
  | .GAME_RESET => 2
  | .PLAYER_JOINED => 3
  | .CHAT_MESSAGE => 4

/-- `static_cast<PacketType>(int)` used by `NetworkPacket::deserialize`.
Only the values 0..4 are produced by the protocol. -/
def PacketType.ofInt (n : Int) : PacketType :=
  if n = 0 then .PLAYER_MOVE
  else if n = 1 then .GAME_STATE
  else if n = 2 then .GAME_RESET
  else if n = 3 then .PLAYER_JOINED
  else .CHAT_MESSAGE

/-- `struct NetworkPacket` (NetworkManager.h): a type tag plus a JSON payload. -/
structure NetworkPacket where
  type : PacketType
  data : Json

/-- `static_cast<int>(mark)` for a `TileState` (EMPTY = 0, X = 1, O = 2). -/
def TileState.toInt : TileState → Int
  | .EMPTY => 0
  | .X => 1
  | .O => 2

/-- `static_cast<TileState>(int)`.  The model covers the declared
enumerators 0..2; other values are undefined behavior in the C++ enum and are
outside the model (mapped to `EMPTY`). -/
def TileState.ofInt (n : Int) : TileState :=
  if n = 1 then .X else if n = 2 then .O else .EMPTY

/-- `static_cast<int>(result)` for a `GameResult`. -/
def GameResult.toInt : GameResult → Int
  | .IN_PROGRESS => 0
  | .X_WINS => 1
  | .O_WINS => 2
  | .DRAW => 3

/-- `static_cast<GameResult>(int)`; values other than 0..3 are outside the
model. -/
def GameResult.ofInt (n : Int) : GameResult :=
  if n = 1 then .X_WINS else if n = 2 then .O_WINS
  else if n = 3 then .DRAW else .IN_PROGRESS

/-! ## Logic thread (Game::logicThreadFunc, Game.cpp)

`LogicState` holds the data the logic thread owns: the `Board` grid and the
thread-local variables `localCurrentPlayer` and `localResult`. -/

/-- `CommandType` together with the `Command` fields actually read by each
branch of `Game::logicThreadFunc` (Game.cpp; the header's enum is stale and
lacks the two sync commands the .cpp uses). -/
inductive Command
  | PLACE_MARK (x y : Int) (mark : TileState)
  | RESET_GAME (fromNetwork : Bool)
  | NETWORK_MOVE (x y : Int) (mark : TileState)
  | NETWORK_RESET
  | SYNC_STATE_REQUEST
  | SYNC_STATE_RECEIVED (mark : TileState)
deriving DecidableEq, Repr

/-- State owned by the logic thread: the board plus `localCurrentPlayer`
and `localResult`. -/
structure LogicState where
  grid : Grid
  turn : TileState
  result : GameResult
deriving DecidableEq, Repr

/-- Initial logic state: fresh board, `X always goes first`, game in
progress. -/
def init0 : LogicState :=
  { grid := emptyGrid, turn := TileState.X, result := GameResult.IN_PROGRESS }

/-- Turn switch: `(localCurrentPlayer == X) ? O : X`. -/
def flipTurn (t : TileState) : TileState :=
  if t = TileState.X then TileState.O else TileState.X

/-- The `PLAYER_MOVE` packet built in the PLACE_MARK branch:
`data["x"] = x; data["y"] = y; data["mark"] = (int)mark`. -/
def movePacket (x y : Int) (m : TileState) : NetworkPacket :=
  ⟨PacketType.PLAYER_MOVE,
   Json.obj [("x", Json.int x), ("y", Json.int y), ("mark", Json.int m.toInt)]⟩

/-- The `GAME_RESET` packet built in the RESET_GAME branch (payload left
default-constructed, i.e. null). -/
def resetPacket : NetworkPacket := ⟨PacketType.GAME_RESET, Json.null⟩

/-- The board flattened row-major (`for y … for x … push_back`) as in the
SYNC_STATE_REQUEST branch. -/
def boardInts (g : Grid) : List Int :=
  [g.t00.toInt, g.t01.toInt, g.t02.toInt,
   g.t10.toInt, g.t11.toInt, g.t12.toInt,
   g.t20.toInt, g.t21.toInt, g.t22.toInt]

/-- The `GAME_STATE` packet built in the SYNC_STATE_REQUEST branch. -/
def gameStatePacket (s : LogicState) : NetworkPacket :=
  ⟨PacketType.GAME_STATE,
   Json.obj [("board", Json.arr ((boardInts s.grid).map Json.int)),
             ("currentPlayer", Json.int s.turn.toInt),
             ("result", Json.int s.result.toInt)]⟩

/-- One iteration of the command dispatch in `Game::logicThreadFunc`,
processing a single `Command`.  Returns the new logic state, the packets
handed to the transport (`broadcastPacket` on the server, `sendPacketToServer`
on the client — either way the packet leaves this engine), and the mark
successfully applied to the board by this command, if any. -/
def step (isServer : Bool) (s : LogicState) :
    Command → LogicState × List NetworkPacket × Option TileState
  | .PLACE_MARK x y m =>
    -- validation: localResult == IN_PROGRESS && cmd.mark == localCurrentPlayer
    -- && board->setTile(...); `setTile` only runs when the first two hold.
    if s.result = GameResult.IN_PROGRESS ∧ m = s.turn then
      let r := setTile s.grid x y m
      if r.2 then
        let res := checkWinner r.1
        ({ grid := r.1,
           turn := if res = GameResult.IN_PROGRESS then flipTurn s.turn else s.turn,
           result := res },
         [movePacket x y m], some m)
      else (s, [], none)
    else (s, [], none)
  | .NETWORK_MOVE x y m =>
    -- applied with no result/turn validation, only board->setTile's own checks
    let r := setTile s.grid x y m
    if r.2 then
      let res := checkWinner r.1
      ({ grid := r.1,
         turn := if res = GameResult.IN_PROGRESS then flipTurn s.turn else s.turn,
         result := res },
       [], some m)
    else (s, [], none)
  | .RESET_GAME fromNetwork =>
    (init0, if fromNetwork then [] else [resetPacket], none)
  | .NETWORK_RESET =>
    (init0, [], none)
  | .SYNC_STATE_REQUEST =>
    (s, if isServer then [gameStatePacket s] else [], none)
  | .SYNC_STATE_RECEIVED m =>
    ({ s with turn := m, result := checkWinner s.grid }, [], none)

/-- Run a list of commands through the logic loop, collecting the trace of
successfully applied marks in order. -/
def runTrace (isServer : Bool) (s : LogicState) :
    List Command → LogicState × List TileState
  | [] => (s, [])
  | c :: cs =>
    let r := step isServer s c
    let rest := runTrace isServer r.1 cs
    (rest.1, r.2.2.toList ++ rest.2)

/-- Strict alternation check: the list of marks is `e, flip e, flip (flip e), …`. -/
def isAltFrom (e : TileState) : List TileState → Bool
  | [] => true
  | m :: r => decide (m = e) && isAltFrom (flipTurn e) r

/-- Classifies the two reset commands (both clear the grid). -/
def isResetCmd : Command → Bool
  | .RESET_GAME _ => true
  | .NETWORK_RESET => true
  | _ => false

/-- Classifies local PLACE_MARK commands. -/
def isPlaceCmd : Command → Bool
  | .PLACE_MARK _ _ _ => true
  | _ => false

/-- Classifies network-originated commands (NETWORK_MOVE / NETWORK_RESET). -/
def isNetworkCmd : Command → Bool
  | .NETWORK_MOVE _ _ _ => true
  | .NETWORK_RESET => true
  | _ => false

/-- The render-thread occupied-cell pre-check in `Game::handleMouseClick`:
`cellState = board->getTile(pos.x, pos.y); if (cellState != EMPTY) reject`.
`handleMouseClick` reaches this only after `pos.valid`, so the `none`
(out-of-bounds) case of `getTile` is unreachable there. -/
def clickRejectsOccupied (g : Grid) (x y : Int) : Bool :=
  match getTile g x y with
  | some t => decide (t ≠ TileState.EMPTY)
  | none => false

/-- The example move sequence from the spec: First (0,0); Second (1,1);
First (0,1); Second (2,2); First (0,2). -/
def c1MoveSeq : List Command :=
  [Command.PLACE_MARK 0 0 TileState.X, Command.PLACE_MARK 1 1 TileState.O,
   Command.PLACE_MARK 0 1 TileState.X, Command.PLACE_MARK 2 2 TileState.O,
   Command.PLACE_MARK 0 2 TileState.X]

/-- A full board with no three-in-a-row for either mark. -/
def c1DrawGrid : Grid :=
  ⟨TileState.X, TileState.O, TileState.X,
   TileState.X, TileState.O, TileState.O,
   TileState.O, TileState.X, TileState.X⟩

/-- A logic state with one X placed at (0,0), O to move. -/
def c2State : LogicState :=
  ⟨⟨TileState.X, TileState.EMPTY, TileState.EMPTY,
    TileState.EMPTY, TileState.EMPTY, TileState.EMPTY,
    TileState.EMPTY, TileState.EMPTY, TileState.EMPTY⟩,
   TileState.O, GameResult.IN_PROGRESS⟩

/-- A terminal logic state: X has completed column 0 and the stored result
is `X_WINS` (consistent with `checkWinner`). -/
def c3WonState : LogicState :=
  ⟨⟨TileState.X, TileState.O, TileState.EMPTY,
    TileState.X, TileState.O, TileState.EMPTY,
    TileState.X, TileState.EMPTY, TileState.EMPTY⟩,
   TileState.X, GameResult.X_WINS⟩

/-- A concrete PlayerMove packet with valid payload fields. -/
def c6Packet : NetworkPacket :=
  ⟨PacketType.PLAYER_MOVE,
   Json.obj [("x", Json.int 1), ("y", Json.int 2), ("mark", Json.int 1)]⟩

/-- A grid whose centre cell is occupied by X. -/
def c10Grid : Grid :=
  ⟨TileState.EMPTY, TileState.EMPTY, TileState.EMPTY,
   TileState.EMPTY, TileState.X, TileState.EMPTY,
   TileState.EMPTY, TileState.EMPTY, TileState.EMPTY⟩

/-! ## Deserialization (NetworkPacket::deserialize, GameServer/GameClient::processMessage)

`NetworkPacket::deserialize` first runs `json::parse` on the byte string.
`DeserInput` is the outcome of that parse: `malformed` when the bytes are not
valid JSON (`json::parse` throws `json::parse_error`), `parsed j` otherwise.
The subsequent field accesses can throw `json::type_error`, which the
function's `catch (const json::parse_error&)` clause does NOT catch; such an
exception escapes `deserialize` and is modelled as `Except.error`. -/

inductive DeserInput
  | malformed
  | parsed (j : Json)

/-- `packetJson[key]` on a non-const `nlohmann::json`: on an object it returns
the member (or inserts and returns null); on null it converts the value to an
object and returns a fresh null member; on any other type it throws
`json::type_error`. -/
def jsonIndex : Json → String → Except Unit Json
  | .obj fields, k => .ok ((fields.lookup k).getD .null)
  | .null, _ => .ok .null
  | _, _ => .error ()

/-- `.get<int>()`: returns the integer or throws `json::type_error`. -/
def jsonGetInt : Json → Except Unit Int
  | .int n => .ok n
  | _ => .error ()

/-- The packet value as it leaves `NetworkPacket::deserialize`: the raw
`type` int (the C++ enum object can hold any int) plus the payload. -/
structure RawPacket where
  typeCode : Int
  data : Json

/-- `NetworkPacket::deserialize`.  On a `json::parse_error` the exception is
caught and logged, and the function RETURNS the default-constructed packet:
its `type` member is left uninitialized — modelled by the unconstrained
`junkType` argument — and `data` is a default-constructed (null) json.
On well-formed JSON the field accesses may throw `json::type_error`, which
escapes (`Except.error`). -/
def deserialize (junkType : Int) : DeserInput → Except Unit RawPacket
  | .malformed => .ok ⟨junkType, .null⟩
  | .parsed j => do
    let t ← jsonIndex j "type"
    let n ← jsonGetInt t
    let d ← jsonIndex j "data"
    .ok ⟨n, d⟩

/-- `GameServer::processMessage` / `GameClient::processMessage`: deserialize
and enqueue the packet on `incomingPackets`; a thrown `std::exception` is
caught and logged and nothing is enqueued.  `some p` = packet `p` enqueued,
`none` = message dropped. -/
def processMessage (junkType : Int) (i : DeserInput) : Option RawPacket :=
  match deserialize junkType i with
  | .ok p => some p
  | .error _ => none

/-- `NetworkPacket::serialize`: `{"type": (int)type, "data": data}` (modelled
at the JSON-value level; `json::parse (dump v) = v`). -/
def serialize (p : NetworkPacket) : Json :=
  Json.obj [("type", Json.int p.type.toInt), ("data", p.data)]

/-- Typed deserialization: `NetworkPacket::deserialize` followed by the
`static_cast<PacketType>` the code performs on the stored int. -/
def deserializeTyped (junkType : Int) (i : DeserInput) : Except Unit NetworkPacket :=
  match deserialize junkType i with
  | .ok r => .ok ⟨PacketType.ofInt r.typeCode, r.data⟩
  | .error e => .error e

/-- Valid payload shapes for the three packet variants named by the spec:
`PlayerMove{x,y,mark}`, `GameReset{}`, `GameState{board[9], turnMark, result}`. -/
def validPayload (p : NetworkPacket) : Bool :=
  match p.type, p.data with
  | .PLAYER_MOVE, .obj [("x", .int _), ("y", .int _), ("mark", .int _)] => true
  | .GAME_RESET, .null => true
  | .GAME_STATE, .obj [("board", .arr cells), ("currentPlayer", .int _), ("result", .int _)] =>
    cells.length = 9 && cells.all (fun c => match c with | .int _ => true | _ => false)
  | _, _ => false

/-! ## Client-side full-state sync (Game::networkThreadFunc, GAME_STATE branch)

On a `GAME_STATE` packet whose payload contains `board` and `currentPlayer`,
the client resets the board, re-applies every non-empty cell from the
flattened 9-cell array, and then (via the `SYNC_STATE_RECEIVED` command) the
logic thread adopts the packet's turn mark verbatim and recomputes
`localResult` with `checkWinner`. -/

/-- The `(idx, x, y)` triples visited by the nested
`for (y …) for (x …)` loop, `idx` running 0..8. -/
def syncPositions : List (Nat × Int × Int) :=
  [(0, 0, 0), (1, 1, 0), (2, 2, 0),
   (3, 0, 1), (4, 1, 1), (5, 2, 1),
   (6, 0, 2), (7, 1, 2), (8, 2, 2)]

/-- Payload of a `GAME_STATE` packet as read by the client: the branch runs
only when `data.contains("board")` and builds its snapshot only when
`data.contains("currentPlayer")`; `result` may be absent. -/
structure SyncPayload where
  board : List Int
  currentPlayer : Int
  result : Option Int

/-- The board produced by the GAME_STATE branch: `board->resetBoard()`
discards the previous contents (hence the `Grid` argument is dropped), then
each in-range, non-EMPTY cell value is written back with `setTile`. -/
def applyGameStateBoard (_ : Grid) (bd : List Int) : Grid :=
  syncPositions.foldl
    (fun acc p =>
      match bd[p.1]? with
      | some v =>
        let st := TileState.ofInt v
        if st ≠ TileState.EMPTY then (setTile acc p.2.1 p.2.2 st).1 else acc
      | none => acc)
    emptyGrid

/-- Net effect on the participant's logic state of receiving a `GAME_STATE`
packet: the board is rebuilt from the payload, and the follow-up
`SYNC_STATE_RECEIVED` command sets `localCurrentPlayer` to the packet's turn
mark and `localResult` to `checkWinner` of the rebuilt board. -/
def applyGameState (s : LogicState) (p : SyncPayload) : LogicState :=
  let g := applyGameStateBoard s.grid p.board
  { grid := g,
    turn := TileState.ofInt p.currentPlayer,
    result := checkWinner g }

/-! ## Host roster (GameServer::onConnectionStatusChanged, NetworkManager.cpp)

Connections are identified by their `HSteamNetConnection` handle (a `Nat`
here).  `clients` is the roster vector. -/

/-- The connection-state values handled by the switch. -/
inductive ConnEvent
  | connecting (c : Nat)
  | findingRoute (c : Nat)
  | connected (c : Nat)
  | closedByPeer (c : Nat)
  | problemDetectedLocally (c : Nat)
  | stateNone (c : Nat)
deriving DecidableEq, Repr

/-- One invocation of `GameServer::onConnectionStatusChanged`.  Returns the
new roster and whether the event was a connection attempt rejected because
the server was full (`clients.size() >= 2` → `CloseConnection`, never added).
`Connecting` below capacity accepts but does not add; `Connected` adds the
handle if absent; `ClosedByPeer`/`ProblemDetectedLocally` erase it. -/
def serverStep (clients : List Nat) : ConnEvent → List Nat × Bool
  | .connecting _ =>
    if clients.length ≥ 2 then (clients, true) else (clients, false)
  | .connected c =>
    (if clients.contains c then clients else clients ++ [c], false)
  | .closedByPeer c => (clients.filter (fun x => x ≠ c), false)
  | .problemDetectedLocally c => (clients.filter (fun x => x ≠ c), false)
  | .findingRoute _ => (clients, false)
  | .stateNone _ => (clients, false)

/-- Fold a sequence of connection-status events through the handler. -/
def runServer (clients : List Nat) (es : List ConnEvent) : List Nat :=
  es.foldl (fun cl e => (serverStep cl e).1) clients

/-- A serialized handshake history: each accepted connection attempt completes
(reaches `Connected`) before the next event is processed. -/
inductive HandshakeEvent
  | join (c : Nat)
  | leave (c : Nat)

/-- Run one serialized handshake: a `Connecting` event, followed — only if it
was not rejected — by the matching `Connected` event; or a disconnect. -/
def runHandshake (clients : List Nat) : HandshakeEvent → List Nat
  | .join c =>
    let r := serverStep clients (.connecting c)
    if r.2 then r.1 else (serverStep r.1 (.connected c)).1
  | .leave c => (serverStep clients (.closedByPeer c)).1

/-- Fold serialized handshakes through the handler. -/
def runHandshakes (clients : List Nat) (hs : List HandshakeEvent) : List Nat :=
  hs.foldl runHandshake clients

/-! ## Helper lemmas about the board -/

theorem isValidPosition_iff {x y : Int} :
    isValidPosition x y = true ↔ 0 ≤ x ∧ x < 3 ∧ 0 ≤ y ∧ y < 3 := by
  simp [isValidPosition, and_assoc]

theorem tileAt_invalid {g : Grid} {x y : Int} (h : isValidPosition x y = false) :
    tileAt g x y = TileState.EMPTY := by
  rw [← Bool.not_eq_true, isValidPosition_iff] at h
  unfold tileAt
  split_ifs <;> first | rfl | omega

theorem tileAt_setCell_self {g : Grid} {x y : Int} (m : TileState)
    (h : isValidPosition x y = true) :
    tileAt (setCell g x y m) x y = m := by
  rw [isValidPosition_iff] at h
  obtain ⟨hx0, hx3, hy0, hy3⟩ := h
  interval_cases x <;> interval_cases y <;> rfl

theorem setCell_invalid {g : Grid} {x y : Int} (m : TileState)
    (h : isValidPosition x y = false) : setCell g x y m = g := by
  rw [← Bool.not_eq_true, isValidPosition_iff] at h
  unfold setCell
  split_ifs <;> first | rfl | omega

set_option maxHeartbeats 1000000 in
theorem tileAt_setCell_frame {g : Grid} {x y a b : Int} (m : TileState)
    (hne : ¬(a = x ∧ b = y)) :
    tileAt (setCell g x y m) a b = tileAt g a b := by
  by_cases hv : isValidPosition x y = true
  · rw [isValidPosition_iff] at hv
    obtain ⟨hx0, hx3, hy0, hy3⟩ := hv
    interval_cases x <;> interval_cases y <;>
      (simp only [setCell]; norm_num; unfold tileAt; split_ifs <;> simp_all)
  · rw [setCell_invalid m (Bool.eq_false_iff.mpr hv)]

theorem setTile_false_eq {g : Grid} {x y : Int} {m : TileState}
    (h : (setTile g x y m).2 = false) : setTile g x y m = (g, false) := by
  unfold setTile at *
  split_ifs at * <;> simp_all

theorem setTile_occupied {g : Grid} {x y : Int} (m : TileState)
    (h : tileAt g x y ≠ TileState.EMPTY) : (setTile g x y m).2 = false := by
  unfold setTile
  split_ifs <;> simp_all

theorem setTile_true_parts {g : Grid} {x y : Int} {m : TileState}
    (h : (setTile g x y m).2 = true) :
    isValidPosition x y = true ∧ tileAt g x y = TileState.EMPTY ∧
      (setTile g x y m).1 = setCell g x y m := by
  unfold setTile at *
  split_ifs at * <;> simp_all

theorem setTile_sets {g : Grid} {x y : Int} {m : TileState}
    (h : (setTile g x y m).2 = true) :
    tileAt (setTile g x y m).1 x y = m := by
  obtain ⟨hv, _, he⟩ := setTile_true_parts h
  rw [he, tileAt_setCell_self m hv]

theorem setTile_preserves_nonempty {g : Grid} {x y a b : Int} {m : TileState}
    (h : tileAt g a b ≠ TileState.EMPTY) :
    tileAt (setTile g x y m).1 a b = tileAt g a b := by
  by_cases hs : (setTile g x y m).2 = true
  · obtain ⟨hv, hemp, he⟩ := setTile_true_parts hs
    rw [he]
    refine tileAt_setCell_frame m ?_
    rintro ⟨rfl, rfl⟩
    exact h hemp
  · rw [setTile_false_eq (Bool.eq_false_iff.mpr hs)]

/-! ## Helper lemmas about the logic-thread step -/

/-- A rejected PLACE_MARK (terminal result, out-of-turn mark, or `setTile`
returning false) leaves the logic state untouched, emits no packet and
applies no mark. -/
theorem step_place_reject {srv : Bool} {s : LogicState} {x y : Int} {m : TileState}
    (h : s.result ≠ GameResult.IN_PROGRESS ∨ m ≠ s.turn ∨
      (setTile s.grid x y m).2 = false) :
    step srv s (.PLACE_MARK x y m) = (s, [], none) := by
  by_cases hc : s.result = GameResult.IN_PROGRESS ∧ m = s.turn
  · have hst : (setTile s.grid x y m).2 = false := by tauto
    obtain ⟨hr, hm⟩ := hc
    subst hm
    simp [step, hr, hst]
  · simp [step, hc]

/-- An accepted PLACE_MARK: the grid takes the `setTile` result, the winner is
recomputed, the turn flips only while the game is still in progress, a
`PLAYER_MOVE` packet is handed to the transport, and the mark is recorded as
applied. -/
theorem step_place_accept {srv : Bool} {s : LogicState} {x y : Int} {m : TileState}
    (h1 : s.result = GameResult.IN_PROGRESS) (h2 : m = s.turn)
    (h3 : (setTile s.grid x y m).2 = true) :
    step srv s (.PLACE_MARK x y m) =
      ({ grid := (setTile s.grid x y m).1,
         turn := if checkWinner (setTile s.grid x y m).1 = GameResult.IN_PROGRESS
                 then flipTurn s.turn else s.turn,
         result := checkWinner (setTile s.grid x y m).1 },
       [movePacket x y m], some m) := by
  subst h2
  simp [step, h1, h3]

/-- A NETWORK_MOVE whose `setTile` fails leaves the state untouched. -/
theorem step_netmove_reject {srv : Bool} {s : LogicState} {x y : Int} {m : TileState}
    (h : (setTile s.grid x y m).2 = false) :
    step srv s (.NETWORK_MOVE x y m) = (s, [], none) := by
  simp [step, h]

/-! ## Helper lemmas about checkWinner -/

theorem guard_iff (a b c : TileState) :
    (a ≠ TileState.EMPTY ∧ a = b ∧ b = c) ↔
      ((a = TileState.X ∧ b = TileState.X ∧ c = TileState.X) ∨
       (a = TileState.O ∧ b = TileState.O ∧ c = TileState.O)) := by
  cases a <;> cases b <;> cases c <;> decide

theorem not_empty_not_x {t : TileState} (h1 : t ≠ TileState.EMPTY)
    (h2 : t ≠ TileState.X) : t = TileState.O := by
  cases t <;> simp_all

set_option maxHeartbeats 2000000 in
/-- Master case analysis for `checkWinner`: either one of the players wins and
holds a line, or no line exists and the result is decided by `isFull`. -/
theorem checkWinner_cases (g : Grid) :
    (checkWinner g = GameResult.X_WINS ∧ specHasLine g TileState.X) ∨
    (checkWinner g = GameResult.O_WINS ∧ specHasLine g TileState.O) ∨
    (checkWinner g = GameResult.DRAW ∧ isFull g = true ∧
      ¬specHasLine g TileState.X ∧ ¬specHasLine g TileState.O) ∨
    (checkWinner g = GameResult.IN_PROGRESS ∧ isFull g = false ∧
      ¬specHasLine g TileState.X ∧ ¬specHasLine g TileState.O) := by
  unfold checkWinner
  split_ifs with h1 h2 h3 h4 h5 h6 h7 h8 h9 h10 h11 h12 h13 h14 h15 h16 h17
  · refine Or.inl ⟨rfl, ?_⟩
    rcases (guard_iff g.t00 g.t01 g.t02).mp h1 with hl | hl
    · unfold specHasLine; exact Or.inl hl
    · rw [h2] at hl; exact absurd hl.1 (by decide)
  · refine Or.inr (Or.inl ⟨rfl, ?_⟩)
    rcases (guard_iff g.t00 g.t01 g.t02).mp h1 with hl | hl
    · exact absurd hl.1 h2
    · unfold specHasLine; exact Or.inl hl
  · refine Or.inl ⟨rfl, ?_⟩
    rcases (guard_iff g.t10 g.t11 g.t12).mp h3 with hl | hl
    · unfold specHasLine; exact Or.inr (Or.inl hl)
    · rw [h4] at hl; exact absurd hl.1 (by decide)
  · refine Or.inr (Or.inl ⟨rfl, ?_⟩)
    rcases (guard_iff g.t10 g.t11 g.t12).mp h3 with hl | hl
    · exact absurd hl.1 h4
    · unfold specHasLine; exact Or.inr (Or.inl hl)
  · refine Or.inl ⟨rfl, ?_⟩
    rcases (guard_iff g.t20 g.t21 g.t22).mp h5 with hl | hl
    · unfold specHasLine; exact Or.inr (Or.inr (Or.inl hl))
    · rw [h6] at hl; exact absurd hl.1 (by decide)
  · refine Or.inr (Or.inl ⟨rfl, ?_⟩)
    rcases (guard_iff g.t20 g.t21 g.t22).mp h5 with hl | hl
    · exact absurd hl.1 h6
    · unfold specHasLine; exact Or.inr (Or.inr (Or.inl hl))
  · refine Or.inl ⟨rfl, ?_⟩
    rcases (guard_iff g.t00 g.t10 g.t20).mp h7 with hl | hl
    · unfold specHasLine; exact Or.inr (Or.inr (Or.inr (Or.inl hl)))
    · rw [h8] at hl; exact absurd hl.1 (by decide)
  · refine Or.inr (Or.inl ⟨rfl, ?_⟩)
    rcases (guard_iff g.t00 g.t10 g.t20).mp h7 with hl | hl
    · exact absurd hl.1 h8
    · unfold specHasLine; exact Or.inr (Or.inr (Or.inr (Or.inl hl)))
  · refine Or.inl ⟨rfl, ?_⟩
    rcases (guard_iff g.t01 g.t11 g.t21).mp h9 with hl | hl
    · unfold specHasLine; exact Or.inr (Or.inr (Or.inr (Or.inr (Or.inl hl))))
    · rw [h10] at hl; exact absurd hl.1 (by decide)
  · refine Or.inr (Or.inl ⟨rfl, ?_⟩)
    rcases (guard_iff g.t01 g.t11 g.t21).mp h9 with hl | hl
    · exact absurd hl.1 h10
    · unfold specHasLine; exact Or.inr (Or.inr (Or.inr (Or.inr (Or.inl hl))))
  · refine Or.inl ⟨rfl, ?_⟩
    rcases (guard_iff g.t02 g.t12 g.t22).mp h11 with hl | hl
    · unfold specHasLine; exact Or.inr (Or.inr (Or.inr (Or.inr (Or.inr (Or.inl hl)))))
    · rw [h12] at hl; exact absurd hl.1 (by decide)
  · refine Or.inr (Or.inl ⟨rfl, ?_⟩)
    rcases (guard_iff g.t02 g.t12 g.t22).mp h11 with hl | hl
    · exact absurd hl.1 h12
    · unfold specHasLine; exact Or.inr (Or.inr (Or.inr (Or.inr (Or.inr (Or.inl hl)))))
  · refine Or.inl ⟨rfl, ?_⟩
    rcases (guard_iff g.t00 g.t11 g.t22).mp h13 with hl | hl
    · unfold specHasLine; exact Or.inr (Or.inr (Or.inr (Or.inr (Or.inr (Or.inr (Or.inl hl))))))
    · rw [h14] at hl; exact absurd hl.1 (by decide)
  · refine Or.inr (Or.inl ⟨rfl, ?_⟩)
    rcases (guard_iff g.t00 g.t11 g.t22).mp h13 with hl | hl
    · exact absurd hl.1 h14
    · unfold specHasLine; exact Or.inr (Or.inr (Or.inr (Or.inr (Or.inr (Or.inr (Or.inl hl))))))
  · refine Or.inl ⟨rfl, ?_⟩
    rcases (guard_iff g.t02 g.t11 g.t20).mp h15 with hl | hl
    · unfold specHasLine; exact Or.inr (Or.inr (Or.inr (Or.inr (Or.inr (Or.inr (Or.inr hl))))))
    · rw [h16] at hl; exact absurd hl.1 (by decide)
  · refine Or.inr (Or.inl ⟨rfl, ?_⟩)
    rcases (guard_iff g.t02 g.t11 g.t20).mp h15 with hl | hl
    · exact absurd hl.1 h16
    · unfold specHasLine; exact Or.inr (Or.inr (Or.inr (Or.inr (Or.inr (Or.inr (Or.inr hl))))))
  · refine Or.inr (Or.inr (Or.inl ⟨rfl, h17, ?_, ?_⟩))
    · intro hl
      unfold specHasLine at hl
      rcases hl with hl | hl | hl | hl | hl | hl | hl | hl
      exacts [h1 ((guard_iff g.t00 g.t01 g.t02).mpr (Or.inl hl)),
        h3 ((guard_iff g.t10 g.t11 g.t12).mpr (Or.inl hl)),
        h5 ((guard_iff g.t20 g.t21 g.t22).mpr (Or.inl hl)),
        h7 ((guard_iff g.t00 g.t10 g.t20).mpr (Or.inl hl)),
        h9 ((guard_iff g.t01 g.t11 g.t21).mpr (Or.inl hl)),
        h11 ((guard_iff g.t02 g.t12 g.t22).mpr (Or.inl hl)),
        h13 ((guard_iff g.t00 g.t11 g.t22).mpr (Or.inl hl)),
        h15 ((guard_iff g.t02 g.t11 g.t20).mpr (Or.inl hl))]
    · intro hl
      unfold specHasLine at hl
      rcases hl with hl | hl | hl | hl | hl | hl | hl | hl
      exacts [h1 ((guard_iff g.t00 g.t01 g.t02).mpr (Or.inr hl)),
        h3 ((guard_iff g.t10 g.t11 g.t12).mpr (Or.inr hl)),
        h5 ((guard_iff g.t20 g.t21 g.t22).mpr (Or.inr hl)),
        h7 ((guard_iff g.t00 g.t10 g.t20).mpr (Or.inr hl)),
        h9 ((guard_iff g.t01 g.t11 g.t21).mpr (Or.inr hl)),
        h11 ((guard_iff g.t02 g.t12 g.t22).mpr (Or.inr hl)),
        h13 ((guard_iff g.t00 g.t11 g.t22).mpr (Or.inr hl)),
        h15 ((guard_iff g.t02 g.t11 g.t20).mpr (Or.inr hl))]
  · refine Or.inr (Or.inr (Or.inr ⟨rfl, Bool.eq_false_iff.mpr h17, ?_, ?_⟩))
    · intro hl
      unfold specHasLine at hl
      rcases hl with hl | hl | hl | hl | hl | hl | hl | hl
      exacts [h1 ((guard_iff g.t00 g.t01 g.t02).mpr (Or.inl hl)),
        h3 ((guard_iff g.t10 g.t11 g.t12).mpr (Or.inl hl)),
        h5 ((guard_iff g.t20 g.t21 g.t22).mpr (Or.inl hl)),
        h7 ((guard_iff g.t00 g.t10 g.t20).mpr (Or.inl hl)),
        h9 ((guard_iff g.t01 g.t11 g.t21).mpr (Or.inl hl)),
        h11 ((guard_iff g.t02 g.t12 g.t22).mpr (Or.inl hl)),
        h13 ((guard_iff g.t00 g.t11 g.t22).mpr (Or.inl hl)),
        h15 ((guard_iff g.t02 g.t11 g.t20).mpr (Or.inl hl))]
    · intro hl
      unfold specHasLine at hl
      rcases hl with hl | hl | hl | hl | hl | hl | hl | hl
      exacts [h1 ((guard_iff g.t00 g.t01 g.t02).mpr (Or.inr hl)),
        h3 ((guard_iff g.t10 g.t11 g.t12).mpr (Or.inr hl)),
        h5 ((guard_iff g.t20 g.t21 g.t22).mpr (Or.inr hl)),
        h7 ((guard_iff g.t00 g.t10 g.t20).mpr (Or.inr hl)),
        h9 ((guard_iff g.t01 g.t11 g.t21).mpr (Or.inr hl)),
        h11 ((guard_iff g.t02 g.t12 g.t22).mpr (Or.inr hl)),
        h13 ((guard_iff g.t00 g.t11 g.t22).mpr (Or.inr hl)),
        h15 ((guard_iff g.t02 g.t11 g.t20).mpr (Or.inr hl))]

/-- `checkWinner` agrees with the spec's scan: a win is returned exactly when
some player holds a line and the declared winner holds one; `DRAW` exactly
when no line exists and the board is full; `IN_PROGRESS` exactly when no line
exists and the board is not full. -/
theorem checkWinner_correct (g : Grid) :
    (checkWinner g = GameResult.X_WINS → specHasLine g TileState.X) ∧
    (checkWinner g = GameResult.O_WINS → specHasLine g TileState.O) ∧
    ((checkWinner g = GameResult.X_WINS ∨ checkWinner g = GameResult.O_WINS) ↔
      (specHasLine g TileState.X ∨ specHasLine g TileState.O)) ∧
    (checkWinner g = GameResult.DRAW ↔
      (¬specHasLine g TileState.X ∧ ¬specHasLine g TileState.O ∧ isFull g = true)) ∧
    (checkWinner g = GameResult.IN_PROGRESS ↔
      (¬specHasLine g TileState.X ∧ ¬specHasLine g TileState.O ∧ isFull g = false)) := by
  rcases checkWinner_cases g with ⟨hw, hl⟩ | ⟨hw, hl⟩ | ⟨hw, hf, hnx, hno⟩ |
    ⟨hw, hf, hnx, hno⟩ <;> rw [hw] <;>
    refine ⟨?_, ?_, ?_, ?_, ?_⟩ <;> simp_all

/-! ## Trace lemmas -/

theorem tileAt_emptyGrid (a b : Int) : tileAt emptyGrid a b = TileState.EMPTY := by
  unfold tileAt emptyGrid
  split_ifs <;> rfl

/-- Any single command preserves the content of a non-empty cell, except that
a reset clears it to `EMPTY`. -/
theorem step_preserves_nonempty_cell (srv : Bool) (s : LogicState) (c : Command)
    (a b : Int) (h : tileAt s.grid a b ≠ TileState.EMPTY) :
    tileAt (step srv s c).1.grid a b = tileAt s.grid a b ∨
      (isResetCmd c = true ∧ tileAt (step srv s c).1.grid a b = TileState.EMPTY) := by
  cases c with
  | PLACE_MARK x y m =>
    left
    by_cases hc : s.result = GameResult.IN_PROGRESS ∧ m = s.turn
    · by_cases hst : (setTile s.grid x y m).2 = true
      · rw [step_place_accept hc.1 hc.2 hst]
        exact setTile_preserves_nonempty h
      · rw [step_place_reject (Or.inr (Or.inr (Bool.eq_false_iff.mpr hst)))]
    · have hrej : step srv s (.PLACE_MARK x y m) = (s, [], none) := by
        rcases not_and_or.mp hc with h' | h'
        · exact step_place_reject (Or.inl h')
        · exact step_place_reject (Or.inr (Or.inl h'))
      rw [hrej]
  | NETWORK_MOVE x y m =>
    left
    by_cases hst : (setTile s.grid x y m).2 = true
    · have hg : (step srv s (.NETWORK_MOVE x y m)).1.grid = (setTile s.grid x y m).1 := by
        simp [step, hst]
      rw [hg]
      exact setTile_preserves_nonempty h
    · rw [step_netmove_reject (Bool.eq_false_iff.mpr hst)]
  | RESET_GAME fromNetwork =>
    right
    refine ⟨rfl, ?_⟩
    have hg : (step srv s (.RESET_GAME fromNetwork)).1.grid = emptyGrid := by
      simp [step, init0]
    rw [hg, tileAt_emptyGrid]
  | NETWORK_RESET =>
    right
    refine ⟨rfl, ?_⟩
    have hg : (step srv s .NETWORK_RESET).1.grid = emptyGrid := by
      simp [step, init0]
    rw [hg, tileAt_emptyGrid]
  | SYNC_STATE_REQUEST => left; simp [step]
  | SYNC_STATE_RECEIVED m => left; simp [step]

/-- In a terminal state, a run of PLACE_MARK commands applies nothing and
changes nothing. -/
theorem runTrace_terminal {srv : Bool} (cmds : List Command) :
    ∀ s : LogicState, s.result ≠ GameResult.IN_PROGRESS →
      (∀ c ∈ cmds, isPlaceCmd c = true) → runTrace srv s cmds = (s, []) := by
  induction cmds with
  | nil => intro s _ _; rfl
  | cons c cs ih =>
    intro s hres hall
    have hc := hall c (List.mem_cons_self c cs)
    have hall' : ∀ d ∈ cs, isPlaceCmd d = true :=
      fun d hd => hall d (List.mem_cons_of_mem c hd)
    cases c with
    | PLACE_MARK x y m =>
      have hstep : step srv s (.PLACE_MARK x y m) = (s, [], none) :=
        step_place_reject (Or.inl hres)
      have hrest := ih s hres hall'
      simp [runTrace, hstep, hrest]
    | RESET_GAME fromNetwork => simp [isPlaceCmd] at hc
    | NETWORK_MOVE x y m => simp [isPlaceCmd] at hc
    | NETWORK_RESET => simp [isPlaceCmd] at hc
    | SYNC_STATE_REQUEST => simp [isPlaceCmd] at hc
    | SYNC_STATE_RECEIVED m => simp [isPlaceCmd] at hc

/-- Marks applied by a run of PLACE_MARK commands alternate strictly starting
from the current expected turn mark. -/
theorem runTrace_alt {srv : Bool} (cmds : List Command) :
    ∀ s : LogicState, (∀ c ∈ cmds, isPlaceCmd c = true) →
      isAltFrom s.turn (runTrace srv s cmds).2 = true := by
  induction cmds with
  | nil => intro s _; rfl
  | cons c cs ih =>
    intro s hall
    have hc := hall c (List.mem_cons_self c cs)
    have hall' : ∀ d ∈ cs, isPlaceCmd d = true :=
      fun d hd => hall d (List.mem_cons_of_mem c hd)
    cases c with
    | PLACE_MARK x y m =>
      by_cases h1 : s.result = GameResult.IN_PROGRESS
      · by_cases h2 : m = s.turn
        · subst h2
          by_cases h3 : (setTile s.grid x y s.turn).2 = true
          · have hstep := @step_place_accept srv s x y s.turn h1 rfl h3
            by_cases h4 : checkWinner (setTile s.grid x y s.turn).1 = GameResult.IN_PROGRESS
            · have hrest := ih
                { grid := (setTile s.grid x y s.turn).1,
                  turn := if checkWinner (setTile s.grid x y s.turn).1 = GameResult.IN_PROGRESS
                          then flipTurn s.turn else s.turn,
                  result := checkWinner (setTile s.grid x y s.turn).1 } hall'
              simp only [h4, if_pos] at hrest
              simp [runTrace, hstep, isAltFrom, h4, hrest]
            · have hterm := @runTrace_terminal srv cs
                { grid := (setTile s.grid x y s.turn).1,
                  turn := if checkWinner (setTile s.grid x y s.turn).1 = GameResult.IN_PROGRESS
                          then flipTurn s.turn else s.turn,
                  result := checkWinner (setTile s.grid x y s.turn).1 } h4 hall'
              simp [runTrace, hstep, isAltFrom, hterm]
          · have hstep : step srv s (.PLACE_MARK x y s.turn) = (s, [], none) :=
              step_place_reject (Or.inr (Or.inr (Bool.eq_false_iff.mpr h3)))
            have hrest := ih s hall'
            simp [runTrace, hstep, hrest]
        · have hstep : step srv s (.PLACE_MARK x y m) = (s, [], none) :=
            step_place_reject (Or.inr (Or.inl h2))
          have hrest := ih s hall'
          simp [runTrace, hstep, hrest]
      · have hstep : step srv s (.PLACE_MARK x y m) = (s, [], none) :=
          step_place_reject (Or.inl h1)
        have hrest := ih s hall'
        simp [runTrace, hstep, hrest]
    | RESET_GAME fromNetwork => simp [isPlaceCmd] at hc
    | NETWORK_MOVE x y m => simp [isPlaceCmd] at hc
    | NETWORK_RESET => simp [isPlaceCmd] at hc
    | SYNC_STATE_REQUEST => simp [isPlaceCmd] at hc
    | SYNC_STATE_RECEIVED m => simp [isPlaceCmd] at hc

/-- A single serialized handshake preserves the 2-peer cap. -/
theorem runHandshake_le (cl : List Nat) (h : cl.length ≤ 2) (e : HandshakeEvent) :
    (runHandshake cl e).length ≤ 2 := by
  cases e with
  | join c =>
    unfold runHandshake serverStep
    by_cases hfull : cl.length ≥ 2
    · simpa [hfull] using h
    · by_cases hmem : c ∈ cl
      · simpa [hfull, hmem] using h
      · simp [hfull, hmem]
        omega
  | leave c =>
    unfold runHandshake serverStep
    exact le_trans (List.length_filter_le _ _) h

/-- Any sequence of serialized handshakes preserves the 2-peer cap. -/
theorem runHandshakes_le (hs : List HandshakeEvent) :
    ∀ cl : List Nat, cl.length ≤ 2 → (runHandshakes cl hs).length ≤ 2 := by
  induction hs with
  | nil => intro cl h; exact h
  | cons e t ih =>
    intro cl h
    have := ih (runHandshake cl e) (runHandshake_le cl h e)
    simpa [runHandshakes, List.foldl_cons] using this

/-! ## Claims -/

/-- C1: for every board, `checkWinner` returns a win exactly when some row,
column or diagonal holds three identical non-empty marks, with the declared
winner holding such a line; `DRAW` exactly when no line exists and all 9 cells
are filled; `IN_PROGRESS` otherwise.  The spec's move sequence First (0,0),
Second (1,1), First (0,1), Second (2,2), First (0,2) yields `X_WINS` (column 0
complete), and the spec's full no-line board yields `DRAW`. -/
theorem checkWinner_matches_spec :
    (∀ g : Grid,
      (checkWinner g = GameResult.X_WINS → specHasLine g TileState.X) ∧
      (checkWinner g = GameResult.O_WINS → specHasLine g TileState.O) ∧
      ((checkWinner g = GameResult.X_WINS ∨ checkWinner g = GameResult.O_WINS) ↔
        (specHasLine g TileState.X ∨ specHasLine g TileState.O)) ∧
      (checkWinner g = GameResult.DRAW ↔
        (¬specHasLine g TileState.X ∧ ¬specHasLine g TileState.O ∧ isFull g = true)) ∧
      (checkWinner g = GameResult.IN_PROGRESS ↔
        (¬specHasLine g TileState.X ∧ ¬specHasLine g TileState.O ∧ isFull g = false))) ∧
    (runTrace false init0 c1MoveSeq).1.result = GameResult.X_WINS ∧
    checkWinner c1DrawGrid = GameResult.DRAW :=
  ⟨checkWinner_correct, by decide, by decide⟩

/-- Witness for C1: on the column-0-complete grid of `c3WonState`,
`checkWinner` reports `X_WINS` and the theorem yields the X line. -/
theorem checkWinner_matches_spec_witness :
    checkWinner c3WonState.grid = GameResult.X_WINS ∧
    specHasLine c3WonState.grid TileState.X :=
  ⟨by decide, (checkWinner_matches_spec.1 c3WonState.grid).1 (by decide)⟩

/-- C2: a PLACE_MARK command that is out-of-turn, targets an occupied cell, or
arrives when the result is no longer `IN_PROGRESS` leaves the grid, the
result, and the expected turn mark exactly as before, emits no packet, applies
no mark, and is non-fatal. -/
theorem invalid_place_mark_rejected (srv : Bool) (s : LogicState) (x y : Int)
    (m : TileState)
    (h : m ≠ s.turn ∨ tileAt s.grid x y ≠ TileState.EMPTY ∨
      s.result ≠ GameResult.IN_PROGRESS) :
    step srv s (.PLACE_MARK x y m) = (s, [], none) := by
  rcases h with h | h | h
  · exact step_place_reject (Or.inr (Or.inl h))
  · exact step_place_reject (Or.inr (Or.inr (setTile_occupied m h)))
  · exact step_place_reject (Or.inl h)

/-- Witness for C2: O places onto the occupied cell (0,0) of `c2State`. -/
theorem invalid_place_mark_rejected_witness :
    (TileState.O ≠ c2State.turn ∨ tileAt c2State.grid 0 0 ≠ TileState.EMPTY ∨
      c2State.result ≠ GameResult.IN_PROGRESS) ∧
    step false c2State (Command.PLACE_MARK 0 0 TileState.O) = (c2State, [], none) :=
  ⟨by decide, invalid_place_mark_rejected false c2State 0 0 TileState.O (by decide)⟩

/-- C3 counterexample: the claim "for every subsequent command that is not a
Reset (including NetworkMove) the grid is left unchanged" is false: in the
terminal state `c3WonState` a NETWORK_MOVE into the empty cell (2,2) mutates
the grid (the NETWORK_MOVE branch has no result check). -/
theorem terminal_network_move_mutates :
    (step false c3WonState (Command.NETWORK_MOVE 2 2 TileState.O)).1.grid ≠
      c3WonState.grid := by
  decide

/-- C3 (amended): once the result is terminal, PLACE_MARK commands are
rejected and leave the grid, result and turn mark unchanged; NETWORK_MOVE
commands, however, are applied unconditionally and can still mutate the
grid. -/
theorem terminal_rejects_place_mark (srv : Bool) (s : LogicState) (x y : Int)
    (m : TileState) (h : s.result ≠ GameResult.IN_PROGRESS) :
    step srv s (.PLACE_MARK x y m) = (s, [], none) :=
  step_place_reject (Or.inl h)

/-- Witness for the amended C3: a PLACE_MARK after X has won is a no-op. -/
theorem terminal_rejects_place_mark_witness :
    c3WonState.result ≠ GameResult.IN_PROGRESS ∧
    step false c3WonState (Command.PLACE_MARK 2 2 TileState.O) =
      (c3WonState, [], none) :=
  ⟨by decide, terminal_rejects_place_mark false c3WonState 2 2 TileState.O (by decide)⟩

/-- C4 counterexample: the claim "the sequence of successfully applied marks
alternates strictly, starting with First" is false for the logic loop: a
NETWORK_MOVE carrying O as the very first command is applied (the branch has
no turn check), so the applied-mark trace is [O]. -/
theorem netmove_breaks_alternation :
    (runTrace false init0 [Command.NETWORK_MOVE 0 0 TileState.O]).2 =
      [TileState.O] ∧
    isAltFrom TileState.X
      (runTrace false init0 [Command.NETWORK_MOVE 0 0 TileState.O]).2 = false := by
  constructor <;> rfl

/-- C4 (amended): a non-Empty cell is never overwritten with a different mark
by any command — only a Reset returns it to `EMPTY` — and for sequences
consisting of PLACE_MARK commands only, the successfully applied marks
alternate strictly starting with First (X); NETWORK_MOVE commands are applied
without a turn check and can break the alternation. -/
theorem cell_overwrite_and_alternation :
    (∀ (srv : Bool) (s : LogicState) (c : Command) (a b : Int),
      tileAt s.grid a b ≠ TileState.EMPTY →
      tileAt (step srv s c).1.grid a b = tileAt s.grid a b ∨
        (isResetCmd c = true ∧
          tileAt (step srv s c).1.grid a b = TileState.EMPTY)) ∧
    (∀ (srv : Bool) (cmds : List Command),
      (∀ c ∈ cmds, isPlaceCmd c = true) →
      isAltFrom TileState.X (runTrace srv init0 cmds).2 = true) := by
  constructor
  · exact step_preserves_nonempty_cell
  · intro srv cmds hall
    exact @runTrace_alt srv cmds init0 hall

/-- Witness for the amended C4: the occupied cell (0,0) survives a PLACE_MARK
elsewhere, and a single valid X move gives the alternating trace [X]. -/
theorem cell_overwrite_and_alternation_witness :
    (tileAt (step false c2State (Command.PLACE_MARK 1 1 TileState.O)).1.grid 0 0 =
        tileAt c2State.grid 0 0 ∨
      (isResetCmd (Command.PLACE_MARK 1 1 TileState.O) = true ∧
        tileAt (step false c2State (Command.PLACE_MARK 1 1 TileState.O)).1.grid 0 0 =
          TileState.EMPTY)) ∧
    isAltFrom TileState.X
      (runTrace false init0 [Command.PLACE_MARK 0 0 TileState.X]).2 = true :=
  ⟨cell_overwrite_and_alternation.1 false c2State
      (Command.PLACE_MARK 1 1 TileState.O) 0 0 (by decide),
   cell_overwrite_and_alternation.2 false
      [Command.PLACE_MARK 0 0 TileState.X] (by decide)⟩

/-- C5: evidence that the claim fails on the code.  For a byte string that is
not valid JSON, `json::parse` throws `json::parse_error`, which `deserialize`
catches and logs — but `deserialize` then RETURNS the default-constructed
packet (its `type` member uninitialized, modelled by `junkType`), and
`processMessage` enqueues it instead of dropping the message.  Only a
well-formed JSON payload with bad fields (second conjunct: the JSON document
`7`) throws `json::type_error` past `deserialize` and is dropped by
`processMessage`'s catch block as the spec describes. -/
theorem malformed_packet_enqueued (junkType : Int) :
    processMessage junkType DeserInput.malformed = some ⟨junkType, Json.null⟩ ∧
    processMessage junkType (DeserInput.parsed (Json.int 7)) = none :=
  ⟨rfl, rfl⟩

/-- C6: for every packet whose payload fields are valid,
`deserialize (serialize p) = p` — serialization is lossless. -/
theorem serialize_roundtrip (junkType : Int) (p : NetworkPacket)
    (h : validPayload p = true) :
    deserializeTyped junkType (DeserInput.parsed (serialize p)) = Except.ok p := by
  obtain ⟨t, d⟩ := p
  cases t <;> rfl

/-- Witness for C6: round trip of a concrete PlayerMove packet. -/
theorem serialize_roundtrip_witness :
    validPayload c6Packet = true ∧
    deserializeTyped 0 (DeserInput.parsed (serialize c6Packet)) =
      Except.ok c6Packet :=
  ⟨rfl, serialize_roundtrip 0 c6Packet rfl⟩

/-- C7: applying the same GameState (full-state sync) packet twice on the
participant yields the same grid, turn mark and result as applying it once —
the second application is a no-op, because the branch starts with
`board->resetBoard()` and rebuilds the state from the packet alone. -/
theorem game_state_sync_idempotent (s : LogicState) (p : SyncPayload) :
    applyGameState (applyGameState s p) p = applyGameState s p := rfl

/-- C8 counterexample: the claim "after every event the client list has at
most 2 entries" is false: three connection attempts all arrive while the
roster is still below capacity (the capacity check runs at `Connecting`, but
the roster only grows at `Connected`), so all three are accepted and the
roster reaches 3. -/
theorem roster_exceeds_cap :
    ¬((runServer [] [ConnEvent.connecting 1, ConnEvent.connecting 2,
        ConnEvent.connecting 3, ConnEvent.connected 1, ConnEvent.connected 2,
        ConnEvent.connected 3]).length ≤ 2) := by
  decide

/-- C8 (amended): a connection attempt arriving when the roster already holds
2 entries is rejected (closed, never added); and when handshakes are
serialized — each accepted `Connecting` is followed by its `Connected` before
the next event — the roster never exceeds 2 entries. -/
theorem roster_cap_amended :
    (∀ (cl : List Nat) (c : Nat), 2 ≤ cl.length →
      serverStep cl (.connecting c) = (cl, true)) ∧
    (∀ hs : List HandshakeEvent, (runHandshakes [] hs).length ≤ 2) := by
  constructor
  · intro cl c h
    simp [serverStep, h]
  · intro hs
    exact runHandshakes_le hs [] (by simp)

/-- Witness for the amended C8: a third attempt against a full roster is
rejected, and two serialized joins stay within the cap. -/
theorem roster_cap_amended_witness :
    serverStep [5, 7] (ConnEvent.connecting 9) = ([5, 7], true) ∧
    (runHandshakes [] [HandshakeEvent.join 1, HandshakeEvent.join 2]).length ≤ 2 :=
  ⟨roster_cap_amended.1 [5, 7] 9 (by decide),
   roster_cap_amended.2 [HandshakeEvent.join 1, HandshakeEvent.join 2]⟩

/-- C9: processing a network-originated command (NETWORK_MOVE or
NETWORK_RESET) never hands a packet to the transport; and a locally committed
move that is looped back through the network as a NETWORK_MOVE for the same
cell is never re-applied — the grid mutates exactly once. -/
theorem network_commands_no_echo :
    (∀ (srv : Bool) (s : LogicState) (c : Command), isNetworkCmd c = true →
      (step srv s c).2.1 = []) ∧
    (∀ (srv : Bool) (s : LogicState) (x y : Int) (m : TileState),
      m ≠ TileState.EMPTY →
      (step srv s (.PLACE_MARK x y m)).2.2 = some m →
      step srv (step srv s (.PLACE_MARK x y m)).1 (.NETWORK_MOVE x y m) =
        ((step srv s (.PLACE_MARK x y m)).1, [], none)) := by
  constructor
  · intro srv s c hc
    cases c with
    | PLACE_MARK x y m => simp [isNetworkCmd] at hc
    | RESET_GAME fromNetwork => simp [isNetworkCmd] at hc
    | NETWORK_MOVE x y m =>
      by_cases hst : (setTile s.grid x y m).2 = true
      · simp [step, hst]
      · simp [step, hst]
    | NETWORK_RESET => rfl
    | SYNC_STATE_REQUEST => simp [isNetworkCmd] at hc
    | SYNC_STATE_RECEIVED m => simp [isNetworkCmd] at hc
  · intro srv s x y m hm happ
    by_cases h1 : s.result = GameResult.IN_PROGRESS
    · by_cases h2 : m = s.turn
      · subst h2
        by_cases h3 : (setTile s.grid x y s.turn).2 = true
        · have hstep := @step_place_accept srv s x y s.turn h1 rfl h3
          rw [hstep]
          refine step_netmove_reject ?_
          refine setTile_occupied _ ?_
          show tileAt (setTile s.grid x y s.turn).1 x y ≠ TileState.EMPTY
          rw [setTile_sets h3]
          exact hm
        · rw [step_place_reject (Or.inr (Or.inr (Bool.eq_false_iff.mpr h3)))] at happ
          simp at happ
      · rw [step_place_reject (Or.inr (Or.inl h2))] at happ
        simp at happ
    · rw [step_place_reject (Or.inl h1)] at happ
      simp at happ

/-- Witness for C9: a NETWORK_RESET emits nothing, and the loopback echo of
X's committed move at (0,0) is not re-applied. -/
theorem network_commands_no_echo_witness :
    (step false init0 Command.NETWORK_RESET).2.1 = [] ∧
    step false (step false init0 (Command.PLACE_MARK 0 0 TileState.X)).1
        (Command.NETWORK_MOVE 0 0 TileState.X) =
      ((step false init0 (Command.PLACE_MARK 0 0 TileState.X)).1, [], none) :=
  ⟨network_commands_no_echo.1 false init0 Command.NETWORK_RESET (by decide),
   network_commands_no_echo.2 false init0 0 0 TileState.X (by decide) (by decide)⟩

/-- C10: for every in-bounds coordinate pair, `Board::getTile` returns `EMPTY`
regardless of the mark actually stored (the bounds check is inverted), the
stored array is indexed only when the coordinates are out of bounds (modelled
as `none`), and consequently the render thread's occupied-cell pre-check in
`handleMouseClick`, which relies on `getTile`, never rejects a click. -/
theorem getTile_inverted :
    (∀ (g : Grid) (x y : Int), isValidPosition x y = true →
      getTile g x y = some TileState.EMPTY) ∧
    (∀ (g : Grid) (x y : Int),
      getTile g x y = none ↔ isValidPosition x y = false) ∧
    (∀ (g : Grid) (x y : Int), isValidPosition x y = true →
      clickRejectsOccupied g x y = false) := by
  refine ⟨fun g x y h => by simp [getTile, h], fun g x y => ?_,
    fun g x y h => by simp [clickRejectsOccupied, getTile, h]⟩
  unfold getTile
  cases hb : isValidPosition x y <;> simp [hb]

/-- Witness for C10: the centre cell of `c10Grid` holds X, yet `getTile`
reports `EMPTY` and the click pre-check does not reject. -/
theorem getTile_inverted_witness :
    getTile c10Grid 1 1 = some TileState.EMPTY ∧
    clickRejectsOccupied c10Grid 1 1 = false ∧
    tileAt c10Grid 1 1 = TileState.X :=
  ⟨getTile_inverted.1 c10Grid 1 1 (by decide),
   getTile_inverted.2.2 c10Grid 1 1 (by decide), by decide⟩

end MA1
